import Mathlib

/-! # AI Timesheet Creator: embedding of the core logic

Shallow embedding of the prompt-composition, request-orchestration and
form-handling logic of the AI-Timesheet-Creator repository
(`services/geminiService.ts` and the `App` component), together with
theorems checking the specification's claims about them.  The external
generation service is abstracted as a function from the assembled request
to a call outcome; everything else is translated directly from the source.
-/

namespace Timesheet

/-- JS-string helper: does the character list (second argument) start with
the pattern (first argument)?  Embeds `String.prototype.startsWith` at the
character level. -/
def listStartsWith : List Char → List Char → Bool
  | [], _ => true
  | _ :: _, [] => false
  | a :: as, b :: bs => a == b && listStartsWith as bs

/-- Does the character list contain `sub` as a contiguous run?  Embeds
`String.prototype.includes` at the character level. -/
def listIncludes (sub : List Char) : List Char → Bool
  | [] => sub.isEmpty
  | b :: bs => listStartsWith sub (b :: bs) || listIncludes sub bs

/-- JS `s.startsWith(p)` on Lean strings. -/
def jsStartsWith (s p : String) : Bool := listStartsWith p.toList s.toList

/-- JS `s.includes(sub)` on Lean strings. -/
def jsIncludes (s sub : String) : Bool := listIncludes sub.toList s.toList

/-- The whitespace characters removed by `String.prototype.trim` (the ASCII
white space characters plus the no-break space; the source only ever trims
form input, where these are the relevant ones). -/
def isJsSpace (c : Char) : Bool :=
  c == ' ' || c == '\t' || c == '\n' || c == '\r' || c == '\x0b' || c == '\x0c' || c == ' '

/-- Embeds the truthiness test `str.trim()` that the source applies to the
calendar text and the narration: the trimmed string is falsy (the field is
blank) exactly when every character of `str` is whitespace. -/
def isBlank (s : String) : Bool := s.toList.all isJsSpace

/-- Embeds the truthiness test applied to whole strings (`weekStartDate`,
`generatedTimesheet`): a JS string is truthy iff it is non-empty. -/
def jsTruthy (s : String) : Bool := s != ""

/-- A browser `File` as the core consumes it: a MIME type (`type`) plus
abstract content, identified with its base64 encoding (see `fileToBase64`). -/
structure File where
  type : String
  data : String
deriving DecidableEq

/-- The parameter record of `generateTimesheet`
(`GenerateTimesheetParams` in `services/geminiService.ts`). -/
structure GenerateTimesheetParams where
  imageFile : Option File
  calendarText : String
  narration : String
  startDate : String
deriving DecidableEq

/-- Modelled from the spec: `fileToBase64` lives in `utils/fileUtils.ts`,
which is not among the sources; the spec (section 4.2) only requires that the
image be encoded to a transportable binary representation.  The encoding is
modelled abstractly: a `File` value carries its own encoded content. -/
def fileToBase64 (f : File) : String := f.data

/-- One content part of the generation request: either the inline image
data (MIME type plus base64 payload) or a text part. -/
inductive Part where
  | inlineData (mimeType : String) (data : String)
  | text (s : String)
deriving DecidableEq

/-- The request sent to `ai.models.generateContent`: the fixed model
identifier plus the ordered part list. -/
structure GenerationRequest where
  model : String
  parts : List Part
deriving DecidableEq

/-- The fixed preamble of `buildPrompt` with the supplied start date
interpolated (`services/geminiService.ts`, lines 21-26). -/
def promptPreamble (startDate : String) : String :=
  "You are a helpful assistant that generates detailed timesheets in Markdown format. Your task is to analyze the provided calendar information, a voice narration of the week's work, and a starting date. Combine all this information to create a structured timesheet.\n\n" ++
    "**Generate a timesheet for the week commencing " ++ startDate ++
    ".**\n\nHere is the information I have provided:\n"

/-- The inventory bullet emitted when an image is present. -/
def bulletImage : String := "- A calendar screenshot.\n"

/-- The inventory bullet emitted when calendar text is present. -/
def bulletText : String := "- Text from my calendar.\n"

/-- The inventory bullet emitted when a narration is present. -/
def bulletNarration : String := "- A voice narration transcript of my work.\n"

/-- The fixed instruction block appended by `buildPrompt`
(`services/geminiService.ts`, lines 31-42), with the start date interpolated
into the main-heading instruction. -/
def instructionBlock (startDate : String) : String :=
  "\n**Instructions for the output:**\n\n1.  Create a main heading: 'Timesheet for Week Commencing " ++ startDate ++
    "'.\n2.  For each day of the week (Monday to Friday, or as indicated by the data), create a subheading.\n3.  Under each day, list the activities as bullet points. Incorporate meetings from the calendar data and tasks from the voice narration.\n4.  If time estimates are mentioned in the voice narration (e.g., 'I spent 3 hours on Project X'), include them next to the task.\n5.  At the end of each day's list, calculate and display the 'Total Hours' for that day in bold.\n6.  After all the days, add a 'Weekly Summary' section.\n7.  In the summary, calculate and display the 'Total Estimated Hours for the Week' in bold.\n8.  Format the entire output as clean, readable Markdown. Use tables for daily summaries if it improves clarity. Ensure the final output is only the markdown, with no extra conversational text or preambles.\n"

/-- `buildPrompt` of `services/geminiService.ts`: the preamble, then one
inventory bullet per present input source, then the fixed instruction
block. -/
def buildPrompt (startDate : String) (hasImage hasText hasNarration : Bool) : String :=
  let prompt := promptPreamble startDate
  let prompt := if hasImage then prompt ++ bulletImage else prompt
  let prompt := if hasText then prompt ++ bulletText else prompt
  let prompt := if hasNarration then prompt ++ bulletNarration else prompt
  prompt ++ instructionBlock startDate

/-- The delimiter line introducing the raw calendar text section. -/
def calendarSectionHeader : String := "\n\n--- CALENDAR TEXT ---\n"

/-- The delimiter line introducing the raw narration section. -/
def narrationSectionHeader : String := "\n\n--- VOICE NARRATION TRANSCRIPT ---\n"

/-- The single text part assembled by `generateTimesheet`: the composed
prompt, with the raw calendar text and the raw narration appended as
delimited sections when non-blank (`services/geminiService.ts`, lines
65-74). -/
def combinedText (p : GenerateTimesheetParams) : String :=
  let promptText := buildPrompt p.startDate p.imageFile.isSome (!isBlank p.calendarText) (!isBlank p.narration)
  let combined := if !isBlank p.calendarText then promptText ++ (calendarSectionHeader ++ p.calendarText) else promptText
  if !isBlank p.narration then combined ++ (narrationSectionHeader ++ p.narration) else combined

/-- The ordered part list assembled by `generateTimesheet`
(`services/geminiService.ts`, lines 53-76): the optional inline image part,
then the single text part. -/
def buildParts (p : GenerateTimesheetParams) : List Part :=
  let parts : List Part :=
    match p.imageFile with
    | some f => [Part.inlineData f.type (fileToBase64 f)]
    | none => []
  parts ++ [Part.text (combinedText p)]

/-- The full request: the fixed model identifier plus the part list. -/
def buildRequest (p : GenerateTimesheetParams) : GenerationRequest :=
  ⟨"gemini-2.5-flash", buildParts p⟩

/-- Outcome of the external `ai.models.generateContent` call as the
orchestrator's `try`/`catch` observes it: the promise resolves with a text
payload, or it throws an `Error` instance carrying a message, or it throws
some value that is not an `Error` instance. -/
inductive CallResult where
  | success (text : String)
  | throwError (message : String)
  | throwOther

/-- The string prepended to a caught `Error` message
(`services/geminiService.ts`, line 88). -/
def errorReturnLead : String := "Error: An error occurred while generating the timesheet. "

/-- The fixed string returned when the thrown value is not an `Error`
(`services/geminiService.ts`, line 90). -/
def unknownErrorReturn : String := "Error: An unknown error occurred while generating the timesheet."

/-- `generateTimesheet` of `services/geminiService.ts`, with the external
service abstracted as a function from the assembled request to a
`CallResult`.  On success the response text is returned verbatim; a thrown
`Error` is converted to a marker-prefixed message carrying the error's
message; any other thrown value yields the fixed marker-prefixed message. -/
def generateTimesheet (p : GenerateTimesheetParams) (call : GenerationRequest → CallResult) : String :=
  match call (buildRequest p) with
  | .success t => t
  | .throwError m => errorReturnLead ++ m
  | .throwOther => unknownErrorReturn

/-- The `App` component's state fields consumed by `isFormValid`,
`handleSubmit` and `handleDownload`. -/
structure AppState where
  screenshotFile : Option File
  calendarText : String
  narration : String
  weekStartDate : String
  generatedTimesheet : String
  isLoading : Bool
  error : Option String
deriving DecidableEq

/-- `isFormValid` of the `App` component:
`(narration.trim() || calendarText.trim() || screenshotFile) && weekStartDate`. -/
def isFormValid (st : AppState) : Bool :=
  (!isBlank st.narration || !isBlank st.calendarText || st.screenshotFile.isSome) &&
    jsTruthy st.weekStartDate

/-- The argument record `handleSubmit` passes to `generateTimesheet`. -/
def toParams (st : AppState) : GenerateTimesheetParams :=
  ⟨st.screenshotFile, st.calendarText, st.narration, st.weekStartDate⟩

/-- How the awaited `generateTimesheet(...)` behaves during one submission:
either it resolves (its result determined by the abstract external call),
or the awaited promise rejects with a thrown value whose `message` field is
the given option (`none` models a thrown value without a message). -/
inductive SubmitOutcome where
  | resolved (call : GenerationRequest → CallResult)
  | rejected (message : Option String)

/-- The form-level validation message (`App`, line 29). -/
def formInvalidMessage : String :=
  "Please provide calendar info (screenshot or text) or a voice narration, and select a start date."

/-- The fallback message of the catch clause (`App`, line 51). -/
def fallbackCatchMessage : String := "An unknown error occurred."

/-- The state just before the generation call: `handleSubmit` clears the
error, sets the busy flag, and clears the previously generated timesheet
(`App`, lines 32-34). -/
def preCallState (st : AppState) : AppState :=
  { st with error := none, isLoading := true, generatedTimesheet := "" }

/-- `handleSubmit` of the `App` component as a state transformer: an invalid
form only sets the form-level error; otherwise the pre-call state is taken,
the orchestrator result is classified by the `Error:` prefix test, a
rejected promise sets the catch-clause error, and the `finally` clause
clears the busy flag (`App`, lines 27-55). -/
def handleSubmit (st : AppState) (out : SubmitOutcome) : AppState :=
  if !isFormValid st then
    { st with error := some formInvalidMessage }
  else
    let st1 := preCallState st
    let st2 :=
      match out with
      | .resolved call =>
          let result := generateTimesheet (toParams st) call
          if jsStartsWith result "Error:" then
            { st1 with error := some result }
          else
            { st1 with generatedTimesheet := result }
      | .rejected m =>
          let msg :=
            match m with
            | some s => if jsTruthy s then s else fallbackCatchMessage
            | none => fallbackCatchMessage
          { st1 with error := some msg }
    { st2 with isLoading := false }

/-- The filename pattern used by `handleDownload` (`App`, line 59). -/
def downloadFilename (weekStartDate : String) : String :=
  "timesheet-for-week-commencing-" ++ weekStartDate ++ ".md"

/-- `handleDownload` of the `App` component: `none` when no timesheet is
displayed (the guard returns early); otherwise the `(content, filename)`
pair handed to `downloadTextFile` (`App`, lines 57-61). -/
def handleDownload (st : AppState) : Option (String × String) :=
  if !jsTruthy st.generatedTimesheet then none
  else some (st.generatedTimesheet, downloadFilename st.weekStartDate)

theorem listStartsWith_append (p r : List Char) : listStartsWith p (p ++ r) = true := by
  induction p with
  | nil => rfl
  | cons a as ih => simp [listStartsWith, ih]

theorem listIncludes_nil (l : List Char) : listIncludes [] l = true := by
  induction l with
  | nil => rfl
  | cons b bs ih => simp [listIncludes, listStartsWith]

theorem listIncludes_append (sub a b : List Char) :
    listIncludes sub (a ++ (sub ++ b)) = true := by
  induction a with
  | nil =>
    cases sub with
    | nil => simpa using listIncludes_nil b
    | cons c cs =>
      simp only [List.nil_append, listIncludes, Bool.or_eq_true]
      exact Or.inl (listStartsWith_append (c :: cs) b)
  | cons x xs ih => simp [listIncludes, ih]

theorem toList_append (a b : String) : (a ++ b).toList = a.toList ++ b.toList := by
  simp [String.toList, String.data_append]

theorem string_append_empty (s : String) : s ++ "" = s := by
  apply String.ext
  simp [String.data_append]

theorem string_append_assoc (a b c : String) : a ++ b ++ c = a ++ (b ++ c) := by
  apply String.ext
  simp [String.data_append]

theorem jsStartsWith_of_eq (s p r : String) (h : s = p ++ r) : jsStartsWith s p = true := by
  subst h
  unfold jsStartsWith
  rw [toList_append]
  exact listStartsWith_append _ _

theorem listIncludes_of_split (sub l : List Char) (h : sub <:+: l) :
    listIncludes sub l = true := by
  obtain ⟨a, b, hab⟩ := h
  rw [← hab, List.append_assoc]
  exact listIncludes_append _ _ _

theorem jsIncludes_of_split (s sub : String) (h : sub.toList <:+: s.toList) :
    jsIncludes s sub = true :=
  listIncludes_of_split _ _ h

theorem jsTruthy_iff (s : String) : jsTruthy s = true ↔ s ≠ "" := by
  simp [jsTruthy, bne_iff_ne]

/-- C1: whenever the external generation call throws an `Error` with message
`m`, the orchestrator returns a string that starts with the fixed error
marker `"Error:"` and contains `m`. -/
theorem c1_thrown_error_is_marked (p : GenerateTimesheetParams)
    (call : GenerationRequest → CallResult) (m : String)
    (h : call (buildRequest p) = CallResult.throwError m) :
    jsStartsWith (generateTimesheet p call) "Error:" = true ∧
      jsIncludes (generateTimesheet p call) m = true := by
  have hg : generateTimesheet p call = errorReturnLead ++ m := by
    unfold generateTimesheet
    rw [h]
  have hsplit : errorReturnLead = "Error:" ++ " An error occurred while generating the timesheet. " := by
    decide
  constructor
  · apply jsStartsWith_of_eq _ _ (" An error occurred while generating the timesheet. " ++ m)
    rw [hg, hsplit, string_append_assoc]
  · apply jsIncludes_of_split
    rw [hg, toList_append]
    exact ⟨errorReturnLead.toList, [], by simp⟩

/-- Witness for C1 at the spec's concrete test: a throw whose message is
"quota exceeded". -/
theorem c1_witness :
    jsStartsWith
        (generateTimesheet ⟨none, "", "", "2024-03-04"⟩ fun _ => CallResult.throwError "quota exceeded")
        "Error:" = true ∧
      jsIncludes
        (generateTimesheet ⟨none, "", "", "2024-03-04"⟩ fun _ => CallResult.throwError "quota exceeded")
        "quota exceeded" = true :=
  c1_thrown_error_is_marked _ _ "quota exceeded" rfl

/-- C3: whenever the external generation call succeeds with text `t`, the
orchestrator returns `t` verbatim. -/
theorem c3_success_verbatim (p : GenerateTimesheetParams)
    (call : GenerationRequest → CallResult) (t : String)
    (h : call (buildRequest p) = CallResult.success t) :
    generateTimesheet p call = t := by
  unfold generateTimesheet
  rw [h]

/-- Witness for C3 at the spec's concrete test: a success returning
"## Monday" yields exactly "## Monday". -/
theorem c3_witness :
    generateTimesheet ⟨none, "", "", "2024-03-04"⟩ (fun _ => CallResult.success "## Monday") =
      "## Monday" :=
  c3_success_verbatim _ _ _ rfl

/-- C9: whenever the external generation call throws a value that is not an
`Error` instance, the orchestrator returns the fixed failure string, which
does not depend on the thrown value. -/
theorem c9_nonerror_throw_fixed_message (p : GenerateTimesheetParams)
    (call : GenerationRequest → CallResult)
    (h : call (buildRequest p) = CallResult.throwOther) :
    generateTimesheet p call = "Error: An unknown error occurred while generating the timesheet." := by
  unfold generateTimesheet
  rw [h]
  rfl

/-- Witness for C9: a concrete non-`Error` throw yields the fixed string. -/
theorem c9_witness :
    generateTimesheet ⟨none, "", "", "2024-03-04"⟩ (fun _ => CallResult.throwOther) =
      "Error: An unknown error occurred while generating the timesheet." :=
  c9_nonerror_throw_fixed_message _ _ rfl

set_option maxRecDepth 100000 in
/-- C4: the text part equals the composed prompt followed by the delimited
calendar-text section exactly when the calendar text is non-blank, followed
by the delimited narration section exactly when the narration is non-blank;
when both are non-blank both sections appear after the composed instruction,
in that order, each carrying its source string verbatim, and at the spec's
blank-blank test input neither delimiter occurs in the text part. -/
theorem c4_delimited_sections (imageFile : Option File) (ct nar d : String) :
    (combinedText ⟨imageFile, ct, nar, d⟩ =
        buildPrompt d imageFile.isSome (!isBlank ct) (!isBlank nar)
          ++ (if !isBlank ct then calendarSectionHeader ++ ct else "")
          ++ (if !isBlank nar then narrationSectionHeader ++ nar else "")) ∧
    (isBlank ct = false → isBlank nar = false →
        combinedText ⟨imageFile, ct, nar, d⟩ =
          buildPrompt d imageFile.isSome true true
            ++ (calendarSectionHeader ++ ct) ++ (narrationSectionHeader ++ nar) ∧
        jsIncludes (combinedText ⟨imageFile, ct, nar, d⟩) (calendarSectionHeader ++ ct) = true ∧
        jsIncludes (combinedText ⟨imageFile, ct, nar, d⟩) (narrationSectionHeader ++ nar) = true) ∧
    jsIncludes (combinedText ⟨none, "", "", "2024-03-04"⟩) "CALENDAR TEXT" = false ∧
    jsIncludes (combinedText ⟨none, "", "", "2024-03-04"⟩) "VOICE NARRATION TRANSCRIPT" = false := by
  refine ⟨?_, ?_, by decide, by decide⟩
  · cases hc : isBlank ct <;> cases hn : isBlank nar <;>
      simp [combinedText, hc, hn, string_append_empty]
  · intro hc hn
    have heq : combinedText ⟨imageFile, ct, nar, d⟩ =
        buildPrompt d imageFile.isSome true true
          ++ (calendarSectionHeader ++ ct) ++ (narrationSectionHeader ++ nar) := by
      simp [combinedText, hc, hn]
    refine ⟨heq, ?_, ?_⟩
    · apply jsIncludes_of_split
      rw [heq]
      exact ⟨(buildPrompt d imageFile.isSome true true).toList,
        (narrationSectionHeader ++ nar).toList, by simp [toList_append, List.append_assoc]⟩
    · apply jsIncludes_of_split
      rw [heq]
      exact ⟨(buildPrompt d imageFile.isSome true true ++ (calendarSectionHeader ++ ct)).toList,
        [], by simp [toList_append, List.append_assoc]⟩

/-- Witness for C4 with both optional inputs non-blank. -/
theorem c4_witness :
    combinedText ⟨none, "Mon 10am sync", "I worked on X", "2024-03-04"⟩ =
      buildPrompt "2024-03-04" false true true
        ++ (calendarSectionHeader ++ "Mon 10am sync")
        ++ (narrationSectionHeader ++ "I worked on X") :=
  ((c4_delimited_sections none "Mon 10am sync" "I worked on X" "2024-03-04").2.1
    (by decide) (by decide)).1

/-- C7: the assembled request is the inline-binary image part (bytes plus
MIME type) exactly when an image is present, followed by the single text
part, which is always present and always last; the sequence has length two
with an image and length one without. -/
theorem c7_request_part_sequence :
    (∀ (f : File) (ct nar d : String),
        buildParts ⟨some f, ct, nar, d⟩ =
          [Part.inlineData f.type (fileToBase64 f),
            Part.text (combinedText ⟨some f, ct, nar, d⟩)]) ∧
    (∀ (ct nar d : String),
        buildParts ⟨none, ct, nar, d⟩ = [Part.text (combinedText ⟨none, ct, nar, d⟩)]) ∧
    (∀ p : GenerateTimesheetParams,
        (buildParts p).getLast? = some (Part.text (combinedText p)) ∧
        (buildParts p).length = if p.imageFile.isSome then 2 else 1) ∧
    (∀ p : GenerateTimesheetParams,
        buildRequest p = ⟨"gemini-2.5-flash", buildParts p⟩) := by
  refine ⟨fun f ct nar d => rfl, fun ct nar d => rfl, ?_, fun p => rfl⟩
  intro p
  obtain ⟨img, ct, nar, d⟩ := p
  cases img <;> exact ⟨rfl, rfl⟩

set_option maxRecDepth 100000 in
/-- C6: for every start date and presence-flag combination, the composed
prompt is the preamble (carrying the exact supplied date), then one
inventory bullet per true flag and none per false flag, then the fixed
instruction block; the prompt always contains the date-carrying preamble
sentence and the instruction block (also when all three flags are false),
and at the spec's concrete date each bullet occurs iff its flag is true. -/
theorem c6_prompt_composer :
    (∀ (startDate : String) (hasImage hasText hasNarration : Bool),
        buildPrompt startDate hasImage hasText hasNarration =
          promptPreamble startDate
            ++ (if hasImage then bulletImage else "")
            ++ (if hasText then bulletText else "")
            ++ (if hasNarration then bulletNarration else "")
            ++ instructionBlock startDate) ∧
    (∀ (startDate : String) (hasImage hasText hasNarration : Bool),
        jsIncludes (buildPrompt startDate hasImage hasText hasNarration)
          ("**Generate a timesheet for the week commencing " ++ startDate ++ ".**") = true) ∧
    (∀ (startDate : String) (hasImage hasText hasNarration : Bool),
        jsIncludes (buildPrompt startDate hasImage hasText hasNarration)
          (instructionBlock startDate) = true) ∧
    (∀ hasImage hasText hasNarration : Bool,
        jsIncludes (buildPrompt "2024-03-04" hasImage hasText hasNarration) bulletImage = hasImage ∧
        jsIncludes (buildPrompt "2024-03-04" hasImage hasText hasNarration) bulletText = hasText ∧
        jsIncludes (buildPrompt "2024-03-04" hasImage hasText hasNarration) bulletNarration
          = hasNarration) := by
  have hshape : ∀ (startDate : String) (hasImage hasText hasNarration : Bool),
      buildPrompt startDate hasImage hasText hasNarration =
        promptPreamble startDate
          ++ (if hasImage then bulletImage else "")
          ++ (if hasText then bulletText else "")
          ++ (if hasNarration then bulletNarration else "")
          ++ instructionBlock startDate := by
    intro d i t n
    cases i <;> cases t <;> cases n <;> simp [buildPrompt, string_append_empty]
  have hC : (".**\n\nHere is the information I have provided:\n" : String).toList =
      (".**" : String).toList ++ ("\n\nHere is the information I have provided:\n" : String).toList := by
    decide
  refine ⟨hshape, ?_, ?_, ?_⟩
  · intro d i t n
    apply jsIncludes_of_split
    rw [hshape d i t n]
    refine ⟨("You are a helpful assistant that generates detailed timesheets in Markdown format. Your task is to analyze the provided calendar information, a voice narration of the week's work, and a starting date. Combine all this information to create a structured timesheet.\n\n" : String).toList,
      (("\n\nHere is the information I have provided:\n" : String)
        ++ (if i then bulletImage else "")
        ++ (if t then bulletText else "")
        ++ (if n then bulletNarration else "")
        ++ instructionBlock d).toList, ?_⟩
    simp [promptPreamble, toList_append, hC, List.append_assoc]
  · intro d i t n
    apply jsIncludes_of_split
    rw [hshape d i t n]
    exact ⟨(promptPreamble d
        ++ (if i then bulletImage else "")
        ++ (if t then bulletText else "")
        ++ (if n then bulletNarration else "")).toList, [], by simp [toList_append, List.append_assoc]⟩
  · intro i t n
    cases i <;> cases t <;> cases n <;> exact ⟨by decide, by decide, by decide⟩

/-- C5: the form is valid exactly when at least one of image present,
non-blank calendar text, non-blank narration holds and the start date is
set (non-empty); consequently an input with none of the three sources is
invalid regardless of the date, and an input with a blank date is invalid
regardless of the other fields. -/
theorem c5_isFormValid_characterization (st : AppState) :
    isFormValid st = true ↔
      ((st.screenshotFile.isSome = true ∨ isBlank st.calendarText = false ∨
          isBlank st.narration = false) ∧
        st.weekStartDate ≠ "") := by
  simp only [isFormValid, Bool.and_eq_true, Bool.or_eq_true, Bool.not_eq_true', jsTruthy,
    bne_iff_ne, ne_eq]
  tauto

/-- Witness for C5: a populated calendar text with a date is valid; the
all-blank input and the blank-date input are invalid. -/
theorem c5_witness :
    isFormValid ⟨none, "Mon 10am sync", "", "2024-03-04", "", false, none⟩ = true ∧
    isFormValid ⟨none, "", "", "2024-03-04", "", false, none⟩ = false ∧
    isFormValid ⟨none, "Mon 10am sync", "", "", "", false, none⟩ = false := by
  refine ⟨?_, by decide, by decide⟩
  exact (c5_isFormValid_characterization _).mpr ⟨Or.inr (Or.inl (by decide)), by decide⟩

/-- C2: for a valid form, `handleSubmit` classifies the orchestrator's
string result as a failure exactly when it starts with the fixed marker
`"Error:"`: such a result becomes the surfaced error message and the stored
generated timesheet stays empty, and any other result is stored as the
generated timesheet — the test only inspects the string, so a legitimate
model result starting with the marker is treated as a failure. -/
theorem c2_error_marker_classification (st : AppState)
    (call : GenerationRequest → CallResult) (hvalid : isFormValid st = true) :
    ((handleSubmit st (SubmitOutcome.resolved call)).error =
        some (generateTimesheet (toParams st) call) ↔
      jsStartsWith (generateTimesheet (toParams st) call) "Error:" = true) ∧
    (handleSubmit st (SubmitOutcome.resolved call)).generatedTimesheet =
      (if jsStartsWith (generateTimesheet (toParams st) call) "Error:" then ""
        else generateTimesheet (toParams st) call) := by
  cases hres : jsStartsWith (generateTimesheet (toParams st) call) "Error:" <;>
    simp [handleSubmit, hvalid, hres, preCallState]

/-- Witness for C2: a model-produced success text that happens to start with
"Error:" is surfaced as the error and not stored as the timesheet. -/
theorem c2_witness :
    (handleSubmit ⟨none, "Mon 10am sync", "", "2024-03-04", "old sheet", false, none⟩
        (SubmitOutcome.resolved fun _ => CallResult.success "Error: looks like Markdown")).error =
      some "Error: looks like Markdown" ∧
    (handleSubmit ⟨none, "Mon 10am sync", "", "2024-03-04", "old sheet", false, none⟩
        (SubmitOutcome.resolved fun _ =>
          CallResult.success "Error: looks like Markdown")).generatedTimesheet = "" := by
  have h := c2_error_marker_classification
    ⟨none, "Mon 10am sync", "", "2024-03-04", "old sheet", false, none⟩
    (fun _ => CallResult.success "Error: looks like Markdown") (by decide)
  have hcond : jsStartsWith
      (generateTimesheet
        (toParams ⟨none, "Mon 10am sync", "", "2024-03-04", "old sheet", false, none⟩)
        fun _ => CallResult.success "Error: looks like Markdown") "Error:" = true := by
    decide
  exact ⟨h.1.mpr hcond, by rw [h.2, if_pos hcond]⟩

/-- C10: a valid submission clears the previously generated timesheet before
the call (the pre-call state holds the empty string), and a submission that
ends in failure — a rejected promise or a marker-prefixed result — leaves
the stored generated timesheet empty rather than restoring the old one. -/
theorem c10_failure_leaves_timesheet_cleared (st : AppState)
    (hvalid : isFormValid st = true) :
    (preCallState st).generatedTimesheet = "" ∧
    (∀ m : Option String,
        (handleSubmit st (SubmitOutcome.rejected m)).generatedTimesheet = "") ∧
    (∀ call : GenerationRequest → CallResult,
        jsStartsWith (generateTimesheet (toParams st) call) "Error:" = true →
        (handleSubmit st (SubmitOutcome.resolved call)).generatedTimesheet = "") := by
  refine ⟨rfl, ?_, ?_⟩
  · intro m
    simp [handleSubmit, hvalid, preCallState]
  · intro call hc
    simp [handleSubmit, hvalid, hc, preCallState]

/-- Witness for C10: starting from a state holding an earlier result, both a
rejected promise and a thrown-`Error` result leave the timesheet empty. -/
theorem c10_witness :
    (handleSubmit ⟨none, "Mon 10am sync", "", "2024-03-04", "old sheet", false, none⟩
        (SubmitOutcome.rejected none)).generatedTimesheet = "" ∧
    (handleSubmit ⟨none, "Mon 10am sync", "", "2024-03-04", "old sheet", false, none⟩
        (SubmitOutcome.resolved fun _ =>
          CallResult.throwError "quota exceeded")).generatedTimesheet = "" := by
  have h := c10_failure_leaves_timesheet_cleared
    ⟨none, "Mon 10am sync", "", "2024-03-04", "old sheet", false, none⟩ (by decide)
  exact ⟨h.2.1 none, h.2.2 _ (by decide)⟩

/-- C8: for a displayed timesheet, the export action hands the raw text and
the filename `timesheet-for-week-commencing-<startDate>.md` to the download
helper; at the spec's concrete date the filename is exactly
`timesheet-for-week-commencing-2024-03-04.md`. -/
theorem c8_download_filename (st : AppState) (h : st.generatedTimesheet ≠ "") :
    handleDownload st =
      some (st.generatedTimesheet,
        "timesheet-for-week-commencing-" ++ st.weekStartDate ++ ".md") ∧
    downloadFilename "2024-03-04" = "timesheet-for-week-commencing-2024-03-04.md" := by
  constructor
  · have ht : jsTruthy st.generatedTimesheet = true := (jsTruthy_iff _).mpr h
    simp [handleDownload, ht, downloadFilename]
  · rfl

/-- Witness for C8 at the spec's concrete date. -/
theorem c8_witness :
    handleDownload ⟨none, "", "", "2024-03-04", "## Monday", false, none⟩ =
      some ("## Monday", "timesheet-for-week-commencing-2024-03-04.md") := by
  have h := c8_download_filename ⟨none, "", "", "2024-03-04", "## Monday", false, none⟩
    (by decide)
  exact h.1.trans (by decide)

end Timesheet
